import Mathlib

/-!
Verification development for the vsphere-collector repository
(src/vsphere.go, two near-duplicate programs in one file).

The Go source is shallowly embedded:
 * the govmomi managed-object shapes that the source reads
   (`mo.Datastore`, `mo.VirtualMachine` and the `vim25/types` summary
   structs) become Lean structures; fields that are Go pointers in those
   structs (`mo.VirtualMachine.Config`, `Summary.Guest`, `Summary.Storage`)
   become `Option`, since the source dereferences them unconditionally and a
   missing section is `nil` there;
 * the per-object loop bodies of `GatherDataStoreMetrics` /
   `GatherVMMetrics` — the spec's Record Normalizer — become the pure
   functions `normalizeDS` / `normalizeVM` (returning `none` where the Go
   code would dereference a nil pointer);
 * the external govmomi collaborator calls (finder, property collector) are
   an environment record `Env` of `Except`-valued responses, and each
   program run is a `Res` value: an outcome plus a trace of the observable
   events (collaborator calls, stdout rows, stderr lines).
-/

namespace VsphereCollector

/-- Entity kinds collected by the program. -/
inductive EntityKind where
  | StorageVolume
  | VirtualMachine
deriving DecidableEq, Repr

/-- `vim25/types.ManagedObjectReference`, an opaque handle. -/
structure ManagedObjectReference where
  value : String
deriving DecidableEq, Repr

/-- `object.Datastore` as used by the source: only its `Reference()` matters. -/
structure DatastoreObj where
  reference : ManagedObjectReference
deriving DecidableEq, Repr

/-- `object.VirtualMachine` as used by the source: only its `Reference()` matters. -/
structure VMObj where
  reference : ManagedObjectReference
deriving DecidableEq, Repr

/-- `types.DatastoreSummary` fields read by the source (all value-typed in Go). -/
structure DatastoreSummary where
  Name : String
  Type' : String
  Url : String
  Capacity : Int
  FreeSpace : Int
deriving DecidableEq, Repr

/-- `mo.Datastore` as retrieved with property list `["summary"]`. -/
structure MoDatastore where
  Summary : DatastoreSummary
deriving DecidableEq, Repr

/-- `types.VirtualHardware` fields read by the source. -/
structure VirtualHardware where
  MemoryMB : Int
  NumCPU : Int
  NumCoresPerSocket : Int
deriving DecidableEq, Repr

/-- `types.VirtualMachineConfigInfo` fields read by the source. -/
structure VirtualMachineConfigInfo where
  GuestFullName : String
  GuestId : String
  Hardware : VirtualHardware
deriving DecidableEq, Repr

/-- `types.VirtualMachineGuestSummary` fields read by the source
(pointer-typed inside `VirtualMachineSummary` in Go). -/
structure VirtualMachineGuestSummary where
  IpAddress : String
  HostName : String
  ToolsRunningStatus : String
deriving DecidableEq, Repr

/-- `types.VirtualMachineQuickStats` fields read by the source. -/
structure VirtualMachineQuickStats where
  HostMemoryUsage : Int
  GuestMemoryUsage : Int
  OverallCpuUsage : Int
  OverallCpuDemand : Int
  SwappedMemory : Int
  UptimeSeconds : Int
deriving DecidableEq, Repr

/-- `types.VirtualMachineStorageSummary` fields read by the source
(pointer-typed inside `VirtualMachineSummary` in Go). -/
structure VirtualMachineStorageSummary where
  Committed : Int
  Uncommitted : Int
deriving DecidableEq, Repr

/-- `types.VirtualMachineRuntimeInfo` fields read by the source. -/
structure VirtualMachineRuntimeInfo where
  ConnectionState : String
  MaxCpuUsage : Int
  MaxMemoryUsage : Int
deriving DecidableEq, Repr

/-- `types.VirtualMachineConfigSummary` fields read by the source. -/
structure VirtualMachineConfigSummary where
  VmPathName : String
deriving DecidableEq, Repr

/-- `types.VirtualMachineSummary` as used by the source. `Guest` and
`Storage` are pointers in Go and may be absent. -/
structure VirtualMachineSummary where
  Runtime : VirtualMachineRuntimeInfo
  Guest : Option VirtualMachineGuestSummary
  Config : VirtualMachineConfigSummary
  Storage : Option VirtualMachineStorageSummary
  QuickStats : VirtualMachineQuickStats
  OverallStatus : String
deriving DecidableEq, Repr

/-- `mo.VirtualMachine` as retrieved with property list
`["name", "config", "summary"]`. `Config` is a pointer in Go and is `nil`
for e.g. an orphaned VM. -/
structure MoVirtualMachine where
  Name : String
  Config : Option VirtualMachineConfigInfo
  Summary : VirtualMachineSummary
deriving DecidableEq, Repr

/-- The spec's MetricRecord: string tags and numeric measurements, as
association lists in the insertion order of the Go loop bodies. -/
structure MetricRecord where
  tags : List (String × String)
  measurements : List (String × Int)
deriving DecidableEq, Repr

/-- The datastore loop body of the first program's `GatherDataStoreMetrics`
(src/vsphere.go lines 75–86): the Record Normalizer for StorageVolume. -/
def normalizeDS (ds : MoDatastore) : MetricRecord :=
  { tags := [("name", ds.Summary.Name),
             ("type", ds.Summary.Type'),
             ("url", ds.Summary.Url)],
    measurements := [("capacity", ds.Summary.Capacity),
                     ("freespace", ds.Summary.FreeSpace)] }

/-- The VM loop body of the first program's `GatherVMMetrics`
(src/vsphere.go lines 103–131): the Record Normalizer for VirtualMachine.
The Go code dereferences the pointer-typed `vm.Config`, `vm.Summary.Guest`
and `vm.Summary.Storage` without a nil check, so a record missing any of
those sections crashes the loop: modelled as `none`. -/
def normalizeVM (vm : MoVirtualMachine) : Option MetricRecord :=
  match vm.Config, vm.Summary.Guest, vm.Summary.Storage with
  | some cfg, some guest, some st =>
    some { tags := [("name", vm.Name),
                    ("guest_full_name", cfg.GuestFullName),
                    ("connection_state", vm.Summary.Runtime.ConnectionState),
                    ("overall_status", vm.Summary.OverallStatus),
                    ("vm_path_name", vm.Summary.Config.VmPathName),
                    ("ip_address", guest.IpAddress),
                    ("hostname", guest.HostName),
                    ("guest_id", cfg.GuestId),
                    ("is_guest_tools_running", guest.ToolsRunningStatus)],
           measurements := [("mem_mb", cfg.Hardware.MemoryMB),
                            ("num_cpu", cfg.Hardware.NumCPU),
                            ("host_mem_usage", vm.Summary.QuickStats.HostMemoryUsage),
                            ("guest_mem_usage", vm.Summary.QuickStats.GuestMemoryUsage),
                            ("overall_cpu_usage", vm.Summary.QuickStats.OverallCpuUsage),
                            ("overall_cpu_demand", vm.Summary.QuickStats.OverallCpuDemand),
                            ("swap_mem", vm.Summary.QuickStats.SwappedMemory),
                            ("uptime_sec", vm.Summary.QuickStats.UptimeSeconds),
                            ("storage_committed", st.Committed),
                            ("storage_uncommitted", st.Uncommitted),
                            ("max_cpu_usage", vm.Summary.Runtime.MaxCpuUsage),
                            ("max_mem_usage", vm.Summary.Runtime.MaxMemoryUsage),
                            ("num_cores_per_socket", cfg.Hardware.NumCoresPerSocket)] }
  | _, _, _ => none

/-- Go's `strings.ToLower` on a string modelled as a character list. -/
def goToLower (s : List Char) : List Char := s.map Char.toLower

/-- `GetEnvBool` (src/vsphere.go lines 30–41) on the value returned by
`os.Getenv`: empty value gives the default, otherwise the lower-cased
one-character prefix `r[0:1]` is switched against "t", "y", "1". -/
def GetEnvBool (r : List Char) (d : Bool) : Bool :=
  if r = [] then d
  else
    let s := goToLower (r.take 1)
    if s = ['t'] ∨ s = ['y'] ∨ s = ['1'] then true else false

/-! ## Effect model: observable events, run results, the environment -/

/-- Observable events of a run: govmomi collaborator calls, stdout writes,
stderr writes. Both embedded programs share this alphabet (the first
program happens never to emit a print event). -/
inductive Event where
  | callDefaultDatacenter
  | callDatastoreList
  | callVirtualMachineList
  | callRetrieve (kind : EntityKind) (refs : List ManagedObjectReference)
  | printDSHeader
  | printDS (name ty url : String) (capacity freeSpace : Int)
  | printVMCount (n : Nat)
  | printVM (name guestFullName : String)
      (memoryMB numCPU hostMemoryUsage guestMemoryUsage overallCpuUsage
       overallCpuDemand swappedMemory uptimeSeconds committed uncommitted
       maxCpuUsage maxMemoryUsage : Int)
  | stderrLine (s : String)
deriving DecidableEq, Repr

/-- Result of running a program fragment: normal completion, process
termination through `exit` (`os.Exit(1)`), or a runtime crash
(nil-pointer dereference). Every branch carries the trace of events
emitted up to that point. -/
inductive Res (α : Type) where
  | ok (trace : List Event) (val : α)
  | exited (trace : List Event)
  | panicked (trace : List Event)
deriving DecidableEq, Repr

/-- Sequencing: an `exit` or a crash stops the program; traces append. -/
def Res.bind {α β : Type} : Res α → (α → Res β) → Res β
  | .ok t a, f =>
    match f a with
    | .ok t' b => .ok (t ++ t') b
    | .exited t' => .exited (t ++ t')
    | .panicked t' => .panicked (t ++ t')
  | .exited t, _ => .exited t
  | .panicked t, _ => .panicked t

/-- The trace of a result, in every outcome. -/
def Res.trace {α : Type} : Res α → List Event
  | .ok t _ => t
  | .exited t => t
  | .panicked t => t

/-- `fmt.Fprintf(os.Stderr, "Error: %s\n", err)` in `exit`. -/
def errorLine (e : String) : String := "Error: " ++ e

/-- The source's `if err != nil { exit(err) }` after a collaborator call
that emits an observable event. -/
def call {α : Type} (ev : Event) (r : Except String α) : Res α :=
  match r with
  | .ok a => .ok [ev] a
  | .error e => .exited [ev, .stderrLine (errorLine e)]

/-- The source's `if err != nil { exit(err) }` after a local step
(URL parsing, client construction) with no collaborator event. -/
def checkErr {α : Type} (r : Except String α) : Res α :=
  match r with
  | .ok a => .ok [] a
  | .error e => .exited [.stderrLine (errorLine e)]

/-- Responses of the external govmomi collaborator (finder and property
collector) for one run, per the spec's Inventory Client interface. -/
structure Env where
  parseURL : Except String Unit
  connect : Except String Unit
  defaultDatacenter : Except String Unit
  datastoreList : Except String (List DatastoreObj)
  virtualMachineList : Except String (List VMObj)
  retrieveDS : List ManagedObjectReference → Except String (List MoDatastore)
  retrieveVM : List ManagedObjectReference → Except String (List MoVirtualMachine)

/-! ## First program (src/vsphere.go lines 1–179): computes and discards -/

/-- `GatherDataStoreMetrics` of the first program (lines 61–87): one
batched `pc.Retrieve` over all refs, then the normalizing loop whose
`tags`/`records` maps are local and dropped. -/
def GatherDataStoreMetrics1 (env : Env) (dss : List DatastoreObj) : Res Unit :=
  let refs := dss.map DatastoreObj.reference
  Res.bind (call (Event.callRetrieve EntityKind.StorageVolume refs) (env.retrieveDS refs))
    (fun dst =>
      let _records := dst.map normalizeDS
      Res.ok [] ())

/-- The normalizing loop of the first program's `GatherVMMetrics` over the
fetched records: all records normalize, or the first nil dereference
crashes the loop (`none`). -/
def normalizeVMList : List MoVirtualMachine → Option (List MetricRecord)
  | [] => some []
  | vm :: rest =>
    match normalizeVM vm, normalizeVMList rest with
    | some m, some ms => some (m :: ms)
    | _, _ => none

/-- `GatherVMMetrics` of the first program (lines 89–133): one batched
`pc.Retrieve` over all refs, then the normalizing loop; a record with a
nil `Config`, `Summary.Guest` or `Summary.Storage` crashes the loop. -/
def GatherVMMetrics1 (env : Env) (vms : List VMObj) : Res Unit :=
  let refs := vms.map VMObj.reference
  Res.bind (call (Event.callRetrieve EntityKind.VirtualMachine refs) (env.retrieveVM refs))
    (fun vmt =>
      match normalizeVMList vmt with
      | none => Res.panicked []
      | some _records => Res.ok [] ())

/-- `main` of the first program (lines 135–179): parse URL, connect,
resolve the single default datacenter, list datastores, gather, list VMs,
gather; every error path goes through `exit`. -/
def main1 (env : Env) : Res Unit :=
  Res.bind (checkErr env.parseURL) (fun _ =>
  Res.bind (checkErr env.connect) (fun _ =>
  Res.bind (call Event.callDefaultDatacenter env.defaultDatacenter) (fun _ =>
  Res.bind (call Event.callDatastoreList env.datastoreList) (fun dss =>
  Res.bind (GatherDataStoreMetrics1 env dss) (fun _ =>
  Res.bind (call Event.callVirtualMachineList env.virtualMachineList) (fun vms =>
  GatherVMMetrics1 env vms))))))

/-! ## Second program (src/vsphere.go lines 180–383): computes and prints -/

/-- The per-datastore print statements of the second program's
`GatherDataStoreMetrics` (lines 288–295). -/
def printDSRow (ds : MoDatastore) : Event :=
  Event.printDS ds.Summary.Name ds.Summary.Type' ds.Summary.Url
    ds.Summary.Capacity ds.Summary.FreeSpace

/-- `GatherDataStoreMetrics` of the second program (lines 267–297):
batched retrieve, then a header line and one row per datastore. -/
def GatherDataStoreMetrics2 (env : Env) (dss : List DatastoreObj) : Res Unit :=
  let refs := dss.map DatastoreObj.reference
  Res.bind (call (Event.callRetrieve EntityKind.StorageVolume refs) (env.retrieveDS refs))
    (fun dst => Res.ok (Event.printDSHeader :: dst.map printDSRow) ())

/-- The per-VM print statements of the second program's `GatherVMMetrics`
(lines 318–336); the guest prints are commented out there, so only
`Config` and `Summary.Storage` are dereferenced. -/
def printVMRow (vm : MoVirtualMachine) : Option Event :=
  match vm.Config, vm.Summary.Storage with
  | some cfg, some st =>
    some (Event.printVM vm.Name cfg.GuestFullName cfg.Hardware.MemoryMB
      cfg.Hardware.NumCPU vm.Summary.QuickStats.HostMemoryUsage
      vm.Summary.QuickStats.GuestMemoryUsage
      vm.Summary.QuickStats.OverallCpuUsage
      vm.Summary.QuickStats.OverallCpuDemand
      vm.Summary.QuickStats.SwappedMemory
      vm.Summary.QuickStats.UptimeSeconds
      st.Committed st.Uncommitted
      vm.Summary.Runtime.MaxCpuUsage vm.Summary.Runtime.MaxMemoryUsage)
  | _, _ => none

/-- The print loop of the second program's `GatherVMMetrics`: rows are
emitted one by one, and a nil dereference crashes mid-loop. -/
def printVMLoop : List MoVirtualMachine → Res Unit
  | [] => Res.ok [] ()
  | vm :: rest =>
    match printVMRow vm with
    | none => Res.panicked []
    | some ev => Res.bind (Res.ok [ev] ()) (fun _ => printVMLoop rest)

/-- `sort.Sort(ByName(vmt))` (lines 250–254, 317): order by `Name`. -/
def sortByName (vmt : List MoVirtualMachine) : List MoVirtualMachine :=
  vmt.mergeSort (fun a b => decide (a.Name ≤ b.Name))

/-- `GatherVMMetrics` of the second program (lines 299–339): batched
retrieve, count line, sort by name, then the print loop. -/
def GatherVMMetrics2 (env : Env) (vms : List VMObj) : Res Unit :=
  let refs := vms.map VMObj.reference
  Res.bind (call (Event.callRetrieve EntityKind.VirtualMachine refs) (env.retrieveVM refs))
    (fun vmt =>
      Res.bind (Res.ok [Event.printVMCount vmt.length] ())
        (fun _ => printVMLoop (sortByName vmt)))

/-- `main` of the second program (lines 341–383): identical flow to the
first program's `main`, but with the printing gather functions. -/
def main2 (env : Env) : Res Unit :=
  Res.bind (checkErr env.parseURL) (fun _ =>
  Res.bind (checkErr env.connect) (fun _ =>
  Res.bind (call Event.callDefaultDatacenter env.defaultDatacenter) (fun _ =>
  Res.bind (call Event.callDatastoreList env.datastoreList) (fun dss =>
  Res.bind (GatherDataStoreMetrics2 env dss) (fun _ =>
  Res.bind (call Event.callVirtualMachineList env.virtualMachineList) (fun vms =>
  GatherVMMetrics2 env vms))))))

/-! ## Trace observations -/

/-- Is this event a batched property-retrieval call for the given kind? -/
def Event.isRetrieve (k : EntityKind) : Event → Bool
  | .callRetrieve k' _ => k' == k
  | _ => false

/-- Number of batched property-retrieval calls for a kind in a trace. -/
def countRetrieve (k : EntityKind) (t : List Event) : Nat :=
  (t.filter (Event.isRetrieve k)).length

/-- Is this event a write to standard output? -/
def Event.isPrint : Event → Bool
  | .printDSHeader => true
  | .printDS _ _ _ _ _ => true
  | .printVMCount _ => true
  | .printVM _ _ _ _ _ _ _ _ _ _ _ _ _ _ => true
  | _ => false

/-- Number of stdout writes in a trace. -/
def countPrints (t : List Event) : Nat :=
  (t.filter Event.isPrint).length

/-- Is this event an enumeration (object listing) call? -/
def Event.isEnumeration : Event → Bool
  | .callDatastoreList => true
  | .callVirtualMachineList => true
  | _ => false

/-- Is this event any collection activity (enumeration or retrieval)? -/
def Event.isCollection : Event → Bool
  | .callDatastoreList => true
  | .callVirtualMachineList => true
  | .callRetrieve _ _ => true
  | _ => false

/-! ## Spec-side extraction tables (for refinement comparison)

These lists transcribe the spec's §4.3 extraction tables, in the spec's
own listing order, to be compared with the key sets produced by the
source-derived `normalizeDS` / `normalizeVM`. -/

/-- Spec §4.3: StorageVolume tag keys. -/
def specStorageVolumeTagKeys : List String := ["name", "type", "url"]

/-- Spec §4.3: StorageVolume measurement keys. -/
def specStorageVolumeMeasurementKeys : List String := ["capacity", "freespace"]

/-- Spec §4.3: VirtualMachine tag keys. -/
def specVirtualMachineTagKeys : List String :=
  ["name", "guest_full_name", "connection_state", "overall_status",
   "vm_path_name", "ip_address", "hostname", "guest_id",
   "is_guest_tools_running"]

/-- Spec §4.3: VirtualMachine measurement keys. -/
def specVirtualMachineMeasurementKeys : List String :=
  ["mem_mb", "num_cpu", "num_cores_per_socket", "host_mem_usage",
   "guest_mem_usage", "overall_cpu_usage", "overall_cpu_demand", "swap_mem",
   "uptime_sec", "storage_committed", "storage_uncommitted", "max_cpu_usage",
   "max_mem_usage"]

/-! ## Concrete sample data -/

def sampleDSRef : ManagedObjectReference := ⟨"datastore-1"⟩

def sampleVMRef : ManagedObjectReference := ⟨"vm-1"⟩

def sampleMoDatastore : MoDatastore :=
  ⟨⟨"ds1", "VMFS", "ds:///vmfs/volumes/1/", 1000, 400⟩⟩

def sampleGuest : VirtualMachineGuestSummary :=
  ⟨"10.0.0.5", "vm1.local", "guestToolsRunning"⟩

def sampleCfg : VirtualMachineConfigInfo :=
  ⟨"Ubuntu Linux (64-bit)", "ubuntu64Guest", ⟨2048, 2, 1⟩⟩

def sampleSummary : VirtualMachineSummary :=
  { Runtime := ⟨"connected", 4000, 8192⟩,
    Guest := some sampleGuest,
    Config := ⟨"[ds1] vm1/vm1.vmx"⟩,
    Storage := some ⟨100, 50⟩,
    QuickStats := ⟨512, 256, 300, 350, 0, 3600⟩,
    OverallStatus := "green" }

def sampleVM : MoVirtualMachine := ⟨"vm1", some sampleCfg, sampleSummary⟩

/-- The MetricRecord that `normalizeVM` yields on `sampleVM`. -/
def sampleVMRecord : MetricRecord := (normalizeVM sampleVM).getD ⟨[], []⟩

/-- A VirtualMachine StructuredRecord with no config section, e.g. an
orphaned VM: `mo.VirtualMachine.Config` is `nil`. -/
def orphanedVM : MoVirtualMachine := ⟨"orphan", none, sampleSummary⟩

def sampleEnvOK : Env :=
  { parseURL := .ok (), connect := .ok (), defaultDatacenter := .ok (),
    datastoreList := .ok [⟨sampleDSRef⟩],
    virtualMachineList := .ok [⟨sampleVMRef⟩],
    retrieveDS := fun _ => .ok [sampleMoDatastore],
    retrieveVM := fun _ => .ok [sampleVM] }

/-- Volume collection succeeds, then the batched VM fetch fails. -/
def envVMFetchFails : Env :=
  { sampleEnvOK with retrieveVM := fun _ => .error "transport" }

/-- The batched datastore fetch fails while VM collection is still pending. -/
def envDSFetchFails : Env :=
  { sampleEnvOK with retrieveDS := fun _ => .error "transport" }

/-- Scope resolution fails: no (or an ambiguous) default datacenter. -/
def envScopeFails : Env :=
  { sampleEnvOK with defaultDatacenter := .error "no default datacenter" }

/-- The batched VM fetch returns an orphaned VM with no config section. -/
def envOrphanVM : Env :=
  { sampleEnvOK with retrieveVM := fun _ => .ok [orphanedVM] }

/-- An empty inventory: zero objects of both kinds. -/
def sampleEnvEmpty : Env :=
  { sampleEnvOK with
    datastoreList := .ok [],
    virtualMachineList := .ok [],
    retrieveDS := fun _ => .ok [],
    retrieveVM := fun _ => .ok [] }

/-! ## Helper lemmas on traces -/

theorem Res.trace_bind {α β : Type} (r : Res α) (f : α → Res β) :
    (Res.bind r f).trace =
      r.trace ++ (match r with
                  | .ok _ a => (f a).trace
                  | .exited _ => []
                  | .panicked _ => []) := by
  cases r with
  | ok t a => cases hf : f a <;> simp [Res.bind, Res.trace, hf]
  | exited t => simp [Res.bind, Res.trace]
  | panicked t => simp [Res.bind, Res.trace]

theorem countRetrieve_append (k : EntityKind) (t₁ t₂ : List Event) :
    countRetrieve k (t₁ ++ t₂) = countRetrieve k t₁ + countRetrieve k t₂ := by
  simp [countRetrieve, List.filter_append]

theorem countPrints_append (t₁ t₂ : List Event) :
    countPrints (t₁ ++ t₂) = countPrints t₁ + countPrints t₂ := by
  simp [countPrints, List.filter_append]

theorem isPrint_stderrLine (s : String) :
    (Event.stderrLine s).isPrint = false := rfl

theorem isPrint_callRetrieve (k : EntityKind) (refs : List ManagedObjectReference) :
    (Event.callRetrieve k refs).isPrint = false := rfl

theorem countPrints_call {α : Type} (ev : Event) (hev : Event.isPrint ev = false)
    (r : Except String α) : countPrints (call ev r).trace = 0 := by
  cases r <;> simp [call, Res.trace, countPrints, List.filter, hev, isPrint_stderrLine]

theorem countPrints_checkErr {α : Type} (r : Except String α) :
    countPrints (checkErr r).trace = 0 := by
  cases r <;> simp [checkErr, Res.trace, countPrints, List.filter, isPrint_stderrLine]

theorem countPrints_bind {α β : Type} (r : Res α) (f : α → Res β)
    (h1 : countPrints r.trace = 0) (h2 : ∀ a, countPrints (f a).trace = 0) :
    countPrints (Res.bind r f).trace = 0 := by
  rw [Res.trace_bind, countPrints_append, h1]
  cases r with
  | ok t a => simpa using h2 a
  | exited t => rfl
  | panicked t => rfl

theorem countRetrieve_res_ok_bind (k : EntityKind) {α β : Type}
    (t : List Event) (a : α) (f : α → Res β) :
    countRetrieve k (Res.bind (Res.ok t a) f).trace =
      countRetrieve k t + countRetrieve k (f a).trace := by
  rw [Res.trace_bind, countRetrieve_append]
  rfl

theorem countRetrieve_printVMLoop (k : EntityKind) (l : List MoVirtualMachine) :
    countRetrieve k (printVMLoop l).trace = 0 := by
  induction l with
  | nil => rfl
  | cons vm rest ih =>
    rcases hv : printVMRow vm with _ | ev
    · simp [printVMLoop, hv, Res.trace, countRetrieve]
    · have hev : Event.isRetrieve k ev = false := by
        rcases hc : vm.Config with _ | cfg <;>
          rcases hs : vm.Summary.Storage with _ | st <;>
          simp [printVMRow, hc, hs] at hv
        subst hv
        rfl
      have hstep : printVMLoop (vm :: rest) =
          Res.bind (Res.ok [ev] ()) (fun _ => printVMLoop rest) := by
        simp [printVMLoop, hv]
      rw [hstep, Res.trace_bind, countRetrieve_append]
      show countRetrieve k [ev] + countRetrieve k (printVMLoop rest).trace = 0
      rw [ih]
      simp [countRetrieve, List.filter, hev]

/-- Inversion for `normalizeVM`: a produced MetricRecord comes from a
record whose three pointer-typed sections are all present, and its tags
and measurements are exactly the loop body's assignments. -/
theorem normalizeVM_eq_some {vm : MoVirtualMachine} {m : MetricRecord}
    (h : normalizeVM vm = some m) :
    ∃ cfg guest st,
      vm.Config = some cfg ∧ vm.Summary.Guest = some guest ∧
      vm.Summary.Storage = some st ∧
      m.tags = [("name", vm.Name),
                ("guest_full_name", cfg.GuestFullName),
                ("connection_state", vm.Summary.Runtime.ConnectionState),
                ("overall_status", vm.Summary.OverallStatus),
                ("vm_path_name", vm.Summary.Config.VmPathName),
                ("ip_address", guest.IpAddress),
                ("hostname", guest.HostName),
                ("guest_id", cfg.GuestId),
                ("is_guest_tools_running", guest.ToolsRunningStatus)] ∧
      m.measurements = [("mem_mb", cfg.Hardware.MemoryMB),
                        ("num_cpu", cfg.Hardware.NumCPU),
                        ("host_mem_usage", vm.Summary.QuickStats.HostMemoryUsage),
                        ("guest_mem_usage", vm.Summary.QuickStats.GuestMemoryUsage),
                        ("overall_cpu_usage", vm.Summary.QuickStats.OverallCpuUsage),
                        ("overall_cpu_demand", vm.Summary.QuickStats.OverallCpuDemand),
                        ("swap_mem", vm.Summary.QuickStats.SwappedMemory),
                        ("uptime_sec", vm.Summary.QuickStats.UptimeSeconds),
                        ("storage_committed", st.Committed),
                        ("storage_uncommitted", st.Uncommitted),
                        ("max_cpu_usage", vm.Summary.Runtime.MaxCpuUsage),
                        ("max_mem_usage", vm.Summary.Runtime.MaxMemoryUsage),
                        ("num_cores_per_socket", cfg.Hardware.NumCoresPerSocket)] := by
  rcases hc : vm.Config with _ | cfg <;>
    rcases hg : vm.Summary.Guest with _ | guest <;>
    rcases hs : vm.Summary.Storage with _ | st <;>
    simp [normalizeVM, hc, hg, hs] at h
  exact ⟨cfg, guest, st, rfl, rfl, rfl, by rw [← h], by rw [← h]⟩

/-- C1: on a StructuredRecord missing a field of the kind's extraction
table — here a VirtualMachine record with no config section — the source's
normalizing loop dereferences the nil `Config` pointer and crashes the
pass instead of producing an "absent" sentinel: `normalizeVM` yields no
MetricRecord and the first program's VM gather pass ends in a crash. -/
theorem c1_missing_config_crashes :
    normalizeVM orphanedVM = none ∧
    GatherVMMetrics1 envOrphanVM [⟨sampleVMRef⟩] =
      Res.panicked [Event.callRetrieve EntityKind.VirtualMachine [sampleVMRef]] := by
  constructor
  · rfl
  · rfl

/-- C4: the Record Normalizer applies exactly the fixed extraction table
of its kind. A StorageVolume record yields tag keys exactly
{name, type, url} valued from the summary's Name/Type/Url and measurement
keys exactly {capacity, freespace}; a VirtualMachine record that yields a
MetricRecord carries exactly the nine spec tag keys and the thirteen spec
measurement keys, each valued from the corresponding source field. -/
theorem c4_extraction_table (ds : MoDatastore) (vm : MoVirtualMachine)
    (m : MetricRecord) (h : normalizeVM vm = some m) :
    ((normalizeDS ds).tags.map Prod.fst).Perm specStorageVolumeTagKeys ∧
    ((normalizeDS ds).measurements.map Prod.fst).Perm specStorageVolumeMeasurementKeys ∧
    (normalizeDS ds).tags.lookup "name" = some ds.Summary.Name ∧
    (normalizeDS ds).tags.lookup "type" = some ds.Summary.Type' ∧
    (normalizeDS ds).tags.lookup "url" = some ds.Summary.Url ∧
    (normalizeDS ds).measurements.lookup "capacity" = some ds.Summary.Capacity ∧
    (normalizeDS ds).measurements.lookup "freespace" = some ds.Summary.FreeSpace ∧
    (m.tags.map Prod.fst).Perm specVirtualMachineTagKeys ∧
    (m.measurements.map Prod.fst).Perm specVirtualMachineMeasurementKeys ∧
    (∃ cfg guest st,
      vm.Config = some cfg ∧ vm.Summary.Guest = some guest ∧
      vm.Summary.Storage = some st ∧
      m.tags.lookup "name" = some vm.Name ∧
      m.tags.lookup "guest_full_name" = some cfg.GuestFullName ∧
      m.tags.lookup "connection_state" = some vm.Summary.Runtime.ConnectionState ∧
      m.tags.lookup "overall_status" = some vm.Summary.OverallStatus ∧
      m.tags.lookup "vm_path_name" = some vm.Summary.Config.VmPathName ∧
      m.tags.lookup "ip_address" = some guest.IpAddress ∧
      m.tags.lookup "hostname" = some guest.HostName ∧
      m.tags.lookup "guest_id" = some cfg.GuestId ∧
      m.tags.lookup "is_guest_tools_running" = some guest.ToolsRunningStatus ∧
      m.measurements.lookup "mem_mb" = some cfg.Hardware.MemoryMB ∧
      m.measurements.lookup "num_cpu" = some cfg.Hardware.NumCPU ∧
      m.measurements.lookup "num_cores_per_socket" = some cfg.Hardware.NumCoresPerSocket ∧
      m.measurements.lookup "host_mem_usage" = some vm.Summary.QuickStats.HostMemoryUsage ∧
      m.measurements.lookup "guest_mem_usage" = some vm.Summary.QuickStats.GuestMemoryUsage ∧
      m.measurements.lookup "overall_cpu_usage" = some vm.Summary.QuickStats.OverallCpuUsage ∧
      m.measurements.lookup "overall_cpu_demand" = some vm.Summary.QuickStats.OverallCpuDemand ∧
      m.measurements.lookup "swap_mem" = some vm.Summary.QuickStats.SwappedMemory ∧
      m.measurements.lookup "uptime_sec" = some vm.Summary.QuickStats.UptimeSeconds ∧
      m.measurements.lookup "storage_committed" = some st.Committed ∧
      m.measurements.lookup "storage_uncommitted" = some st.Uncommitted ∧
      m.measurements.lookup "max_cpu_usage" = some vm.Summary.Runtime.MaxCpuUsage ∧
      m.measurements.lookup "max_mem_usage" = some vm.Summary.Runtime.MaxMemoryUsage) := by
  obtain ⟨cfg, guest, st, hc, hg, hs, htags, hmeas⟩ := normalizeVM_eq_some h
  refine ⟨?_, ?_, rfl, rfl, rfl, rfl, rfl, ?_, ?_, cfg, guest, st, hc, hg, hs,
    ?_, ?_, ?_, ?_, ?_, ?_, ?_, ?_, ?_, ?_, ?_, ?_, ?_, ?_, ?_, ?_, ?_, ?_,
    ?_, ?_, ?_, ?_⟩
  · exact List.Perm.refl _
  · exact List.Perm.refl _
  · rw [htags]
    simp [specVirtualMachineTagKeys]
  · rw [hmeas]
    simp [specVirtualMachineMeasurementKeys]
    decide
  all_goals first
  | (rw [htags]; rfl)
  | (rw [hmeas]; rfl)

/-- C6: the Record Normalizer is a pure, deterministic function of the
StructuredRecord: identical records normalize to identical MetricRecords,
for both entity kinds. -/
theorem c6_normalize_pure :
    (∀ ds₁ ds₂ : MoDatastore, ds₁ = ds₂ → normalizeDS ds₁ = normalizeDS ds₂) ∧
    (∀ vm₁ vm₂ : MoVirtualMachine, vm₁ = vm₂ → normalizeVM vm₁ = normalizeVM vm₂) :=
  ⟨fun _ _ h => by rw [h], fun _ _ h => by rw [h]⟩

/-- C8: `GetEnvBool` on a non-empty value is true exactly when the first
character, lower-cased, is `t`, `y` or `1`; on the empty value it returns
the supplied default. -/
theorem c8_env_bool_truthy (r : List Char) (d : Bool) :
    (r ≠ [] → (GetEnvBool r d = true ↔
      (r.headI.toLower = 't' ∨ r.headI.toLower = 'y' ∨ r.headI.toLower = '1'))) ∧
    GetEnvBool [] d = d := by
  constructor
  · intro hr
    cases r with
    | nil => exact absurd rfl hr
    | cons c cs =>
      simp [GetEnvBool, goToLower, List.headI]
  · simp [GetEnvBool]

/-- C9: every MetricRecord produced by the Record Normalizer, of either
kind, carries the `name` tag, valued with the source object's name. -/
theorem c9_name_tag (ds : MoDatastore) (vm : MoVirtualMachine)
    (m : MetricRecord) (h : normalizeVM vm = some m) :
    (normalizeDS ds).tags.lookup "name" = some ds.Summary.Name ∧
    m.tags.lookup "name" = some vm.Name := by
  obtain ⟨cfg, guest, st, _, _, _, htags, _⟩ := normalizeVM_eq_some h
  exact ⟨rfl, by rw [htags]; rfl⟩

/-- C5: an empty inventory of a kind yields zero MetricRecords and no
error: with zero objects enumerated, each gather pass of both programs
completes normally, with no printed record rows (second program) and no
records computed (first program maps over the empty fetched list), under
the spec's collaborator contract that a batched retrieval over zero
references returns the empty record sequence. -/
theorem c5_empty_inventory (env : Env)
    (hds : env.retrieveDS [] = .ok []) (hvm : env.retrieveVM [] = .ok []) :
    GatherDataStoreMetrics1 env [] =
      Res.ok [Event.callRetrieve EntityKind.StorageVolume []] () ∧
    GatherVMMetrics1 env [] =
      Res.ok [Event.callRetrieve EntityKind.VirtualMachine []] () ∧
    GatherDataStoreMetrics2 env [] =
      Res.ok [Event.callRetrieve EntityKind.StorageVolume [],
              Event.printDSHeader] () ∧
    GatherVMMetrics2 env [] =
      Res.ok [Event.callRetrieve EntityKind.VirtualMachine [],
              Event.printVMCount 0] () := by
  refine ⟨?_, ?_, ?_, ?_⟩ <;>
    simp [GatherDataStoreMetrics1, GatherVMMetrics1, GatherDataStoreMetrics2,
          GatherVMMetrics2, call, hds, hvm, Res.bind, printVMLoop, sortByName,
          normalizeVMList]

/-- C7: when scope resolution (the single default datacenter) fails, both
programs exit through `exit` with the scope error surfaced on stderr
before any enumeration or retrieval of either entity kind is attempted,
and zero MetricRecords are printed. -/
theorem c7_scope_resolution_failure (env : Env) (e : String)
    (h1 : env.parseURL = .ok ()) (h2 : env.connect = .ok ())
    (h3 : env.defaultDatacenter = .error e) :
    main1 env =
      Res.exited [Event.callDefaultDatacenter, Event.stderrLine (errorLine e)] ∧
    main2 env =
      Res.exited [Event.callDefaultDatacenter, Event.stderrLine (errorLine e)] ∧
    (main2 env).trace.filter Event.isCollection = [] ∧
    countPrints (main2 env).trace = 0 ∧
    (main1 env).trace.filter Event.isCollection = [] := by
  have hm1 : main1 env =
      Res.exited [Event.callDefaultDatacenter, Event.stderrLine (errorLine e)] := by
    simp [main1, checkErr, call, h1, h2, h3, Res.bind]
  have hm2 : main2 env =
      Res.exited [Event.callDefaultDatacenter, Event.stderrLine (errorLine e)] := by
    simp [main2, checkErr, call, h1, h2, h3, Res.bind]
  refine ⟨hm1, hm2, ?_, ?_, ?_⟩ <;>
    simp [hm1, hm2, Res.trace, countPrints, List.filter, Event.isCollection,
          Event.isPrint]

/-- C2 (amended): when every step up to and including the StorageVolume
collection succeeds and the batched VirtualMachine fetch then fails, the
run of the printing program terminates with non-zero status, the already
emitted StorageVolume rows remain in the output, and the retrieval error
is reported on stderr with its cause preserved. -/
theorem c2_vm_fetch_fails_after_volumes (env : Env) (dss : List DatastoreObj)
    (dst : List MoDatastore) (vms : List VMObj) (e : String)
    (h1 : env.parseURL = .ok ()) (h2 : env.connect = .ok ())
    (h3 : env.defaultDatacenter = .ok ())
    (h4 : env.datastoreList = .ok dss)
    (h5 : env.retrieveDS (dss.map DatastoreObj.reference) = .ok dst)
    (h6 : env.virtualMachineList = .ok vms)
    (h7 : env.retrieveVM (vms.map VMObj.reference) = .error e) :
    main2 env = Res.exited
      ([Event.callDefaultDatacenter, Event.callDatastoreList,
        Event.callRetrieve EntityKind.StorageVolume (dss.map DatastoreObj.reference),
        Event.printDSHeader] ++ dst.map printDSRow ++
       [Event.callVirtualMachineList,
        Event.callRetrieve EntityKind.VirtualMachine (vms.map VMObj.reference),
        Event.stderrLine (errorLine e)]) := by
  simp [main2, GatherDataStoreMetrics2, GatherVMMetrics2, call, checkErr,
        h1, h2, h3, h4, h5, h6, h7, Res.bind]

/-- C2 (counterexample to the claim as stated): a fetch failure for the
StorageVolume kind terminates the whole process, so the VirtualMachine
kind — still pending — is never enumerated or fetched: kind-level
isolation does not hold for pending kinds. -/
theorem c2_pending_kind_aborted :
    main2 envDSFetchFails = Res.exited
      [Event.callDefaultDatacenter, Event.callDatastoreList,
       Event.callRetrieve EntityKind.StorageVolume [sampleDSRef],
       Event.stderrLine (errorLine "transport")] ∧
    countRetrieve EntityKind.VirtualMachine (main2 envDSFetchFails).trace = 0 ∧
    (main2 envDSFetchFails).trace.filter Event.isEnumeration =
      [Event.callDatastoreList] := by
  refine ⟨by decide, by decide, by decide⟩

/-- C3: one batched property-retrieval call per entity kind per gather
pass, however many objects were enumerated — in both programs and in
every outcome of the call. -/
theorem c3_single_batched_call (env : Env) (dss : List DatastoreObj)
    (vms : List VMObj) (hds : dss ≠ []) (hvms : vms ≠ []) :
    countRetrieve EntityKind.StorageVolume (GatherDataStoreMetrics1 env dss).trace = 1 ∧
    countRetrieve EntityKind.VirtualMachine (GatherVMMetrics1 env vms).trace = 1 ∧
    countRetrieve EntityKind.StorageVolume (GatherDataStoreMetrics2 env dss).trace = 1 ∧
    countRetrieve EntityKind.VirtualMachine (GatherVMMetrics2 env vms).trace = 1 := by
  refine ⟨?_, ?_, ?_, ?_⟩
  · rcases h : env.retrieveDS (dss.map DatastoreObj.reference) with e | dst <;>
      simp [GatherDataStoreMetrics1, call, h, Res.bind, Res.trace, countRetrieve,
            List.filter, Event.isRetrieve, isPrint_stderrLine]
  · rcases h : env.retrieveVM (vms.map VMObj.reference) with e | vmt
    · simp [GatherVMMetrics1, call, h, Res.bind, Res.trace, countRetrieve,
            List.filter, Event.isRetrieve]
    · rcases hm : normalizeVMList vmt with _ | rs <;>
        simp [GatherVMMetrics1, call, h, hm, Res.bind, Res.trace, countRetrieve,
              List.filter, Event.isRetrieve]
  · rcases h : env.retrieveDS (dss.map DatastoreObj.reference) with e | dst <;>
      simp [GatherDataStoreMetrics2, call, h, Res.bind, Res.trace, countRetrieve,
            List.filter, Event.isRetrieve, printDSRow]
  · rcases h : env.retrieveVM (vms.map VMObj.reference) with e | vmt
    · simp [GatherVMMetrics2, call, h, Res.bind, Res.trace, countRetrieve,
            List.filter, Event.isRetrieve]
    · have hloop := countRetrieve_printVMLoop EntityKind.VirtualMachine (sortByName vmt)
      have hcall : GatherVMMetrics2 env vms =
          Res.bind (Res.ok [Event.callRetrieve EntityKind.VirtualMachine
              (vms.map VMObj.reference)] vmt)
            (fun vmt => Res.bind (Res.ok [Event.printVMCount vmt.length] ())
              (fun _ => printVMLoop (sortByName vmt))) := by
        simp only [GatherVMMetrics2, h, call]
      rw [hcall, countRetrieve_res_ok_bind, countRetrieve_res_ok_bind, hloop]
      simp [countRetrieve, List.filter, Event.isRetrieve]

/-- C10: in the first program both gather functions compute the per-object
tags/records maps and discard them: on success they return `()` with a
trace holding nothing but the single batched retrieval call, and a whole
run of the first program never writes anything to standard output, so its
normalized metrics are never emitted anywhere. -/
theorem c10_records_discarded (env : Env) (dss : List DatastoreObj)
    (vms : List VMObj) :
    countPrints (GatherDataStoreMetrics1 env dss).trace = 0 ∧
    countPrints (GatherVMMetrics1 env vms).trace = 0 ∧
    countPrints (main1 env).trace = 0 ∧
    (∀ dst, env.retrieveDS (dss.map DatastoreObj.reference) = .ok dst →
      GatherDataStoreMetrics1 env dss =
        Res.ok [Event.callRetrieve EntityKind.StorageVolume
                  (dss.map DatastoreObj.reference)] ()) ∧
    (∀ vmt rs, env.retrieveVM (vms.map VMObj.reference) = .ok vmt →
      normalizeVMList vmt = some rs →
      GatherVMMetrics1 env vms =
        Res.ok [Event.callRetrieve EntityKind.VirtualMachine
                  (vms.map VMObj.reference)] ()) := by
  have hg1 : ∀ (env : Env) (dss : List DatastoreObj),
      countPrints (GatherDataStoreMetrics1 env dss).trace = 0 := by
    intro env dss
    apply countPrints_bind
    · exact countPrints_call (Event.callRetrieve EntityKind.StorageVolume
        (dss.map DatastoreObj.reference)) rfl _
    · intro dst
      rfl
  have hg2 : ∀ (env : Env) (vms : List VMObj),
      countPrints (GatherVMMetrics1 env vms).trace = 0 := by
    intro env vms
    apply countPrints_bind
    · exact countPrints_call (Event.callRetrieve EntityKind.VirtualMachine
        (vms.map VMObj.reference)) rfl _
    · intro vmt
      rcases hm : normalizeVMList vmt with _ | rs <;>
        simp [hm, countPrints, Res.trace, List.filter]
  refine ⟨hg1 env dss, hg2 env vms, ?_, ?_, ?_⟩
  · apply countPrints_bind _ _ (countPrints_checkErr _)
    intro _
    apply countPrints_bind _ _ (countPrints_checkErr _)
    intro _
    apply countPrints_bind _ _ (countPrints_call Event.callDefaultDatacenter rfl _)
    intro _
    apply countPrints_bind _ _ (countPrints_call Event.callDatastoreList rfl _)
    intro dss2
    apply countPrints_bind _ _ (hg1 env dss2)
    intro _
    apply countPrints_bind _ _ (countPrints_call Event.callVirtualMachineList rfl _)
    intro vms2
    exact hg2 env vms2
  · intro dst hdst
    simp [GatherDataStoreMetrics1, call, hdst, Res.bind]
  · intro vmt rs hvmt hm
    simp [GatherVMMetrics1, call, hvmt, hm, Res.bind]

/-! ## Witnesses: the hypothesised theorems instantiated at concrete data -/

theorem c2_vm_fetch_fails_after_volumes_witness :
    main2 envVMFetchFails = Res.exited
      ([Event.callDefaultDatacenter, Event.callDatastoreList,
        Event.callRetrieve EntityKind.StorageVolume
          (([⟨sampleDSRef⟩] : List DatastoreObj).map DatastoreObj.reference),
        Event.printDSHeader] ++ [sampleMoDatastore].map printDSRow ++
       [Event.callVirtualMachineList,
        Event.callRetrieve EntityKind.VirtualMachine
          (([⟨sampleVMRef⟩] : List VMObj).map VMObj.reference),
        Event.stderrLine (errorLine "transport")]) :=
  c2_vm_fetch_fails_after_volumes envVMFetchFails [⟨sampleDSRef⟩]
    [sampleMoDatastore] [⟨sampleVMRef⟩] "transport" rfl rfl rfl rfl rfl rfl rfl

theorem c3_single_batched_call_witness :
    countRetrieve EntityKind.StorageVolume
      (GatherDataStoreMetrics1 sampleEnvOK [⟨sampleDSRef⟩]).trace = 1 :=
  (c3_single_batched_call sampleEnvOK [⟨sampleDSRef⟩] [⟨sampleVMRef⟩]
    (by decide) (by decide)).1

theorem c4_extraction_table_witness :
    (sampleVMRecord.measurements.map Prod.fst).Perm
      specVirtualMachineMeasurementKeys :=
  (c4_extraction_table sampleMoDatastore sampleVM sampleVMRecord
    rfl).2.2.2.2.2.2.2.2.1

theorem c5_empty_inventory_witness :
    GatherDataStoreMetrics1 sampleEnvEmpty [] =
      Res.ok [Event.callRetrieve EntityKind.StorageVolume []] () :=
  (c5_empty_inventory sampleEnvEmpty rfl rfl).1

theorem c6_normalize_pure_witness :
    normalizeDS sampleMoDatastore = normalizeDS sampleMoDatastore :=
  c6_normalize_pure.1 sampleMoDatastore sampleMoDatastore rfl

theorem c7_scope_resolution_failure_witness :
    main1 envScopeFails = Res.exited
      [Event.callDefaultDatacenter,
       Event.stderrLine (errorLine "no default datacenter")] :=
  (c7_scope_resolution_failure envScopeFails "no default datacenter"
    rfl rfl rfl).1

theorem c8_env_bool_truthy_witness :
    GetEnvBool ['Y'] false = true :=
  ((c8_env_bool_truthy ['Y'] false).1 (by decide)).mpr (by decide)

theorem c9_name_tag_witness :
    sampleVMRecord.tags.lookup "name" = some sampleVM.Name :=
  (c9_name_tag sampleMoDatastore sampleVM sampleVMRecord rfl).2

theorem c10_records_discarded_witness :
    countPrints (GatherDataStoreMetrics1 sampleEnvOK [⟨sampleDSRef⟩]).trace = 0 :=
  (c10_records_discarded sampleEnvOK [⟨sampleDSRef⟩] [⟨sampleVMRef⟩]).1

end VsphereCollector
